import Mathlib

/-!
Verification development for the polaris-cpp client core.

The definitions below are a shallow embedding of the C++ sources:
  * `src/polaris/api/provider_api.cpp` — request validation
    (`CheckInstance`, `CheckInstanceOrId`) and the bounded retry loop
    shared by `ProviderApi::Register` / `Deregister` / `Heartbeat`;
  * `src/polaris/plugin/plugin_manager.cpp` — the named plugin-factory
    map, the load-balance-type index, and the instance pre-update
    handler chain;
  * `src/polaris/engine/outlier_detection_executor.cpp` — the periodic
    `TimingDetect` task.

Machine integers (`uint64_t`) are modelled as `Nat` with explicit
wrap-around subtraction modulo `2 ^ 64` where the source performs
unsigned subtraction.  External collaborators (the server connector,
the wall clock, plugin objects) are modelled as oracles: functions or
data supplied as parameters, so every theorem quantifies over their
behaviour.
-/

namespace Polaris

/-- Return-code taxonomy surfaced to the caller (`polaris/defs.h`).
The named constructors are the codes the visible sources mention; the
`other` constructor stands for the remaining pass-through business
codes of the closed enum. -/
inductive ReturnCode where
  | kReturnOk
  | kReturnInvalidArgument
  | kReturnNetworkFailed
  | kReturnServerError
  | kReturnPluginError
  | kReturnExistedResource
  | kReturnTimeout
  | kReturnNotFound
  | other (code : Nat)
deriving DecidableEq, Repr

open ReturnCode

/-- Width of `uint64_t` values. -/
def W : Nat := 2 ^ 64

/-- `uint64_t` subtraction `a - b` (wrap-around modulo `2 ^ 64`). -/
def sub64 (a b : Nat) : Nat := (a % W + (W - b % W)) % W

/-- `Time::GetCurrentTimeMs() - begin_time` as computed on line 149 of
`provider_api.cpp`: the unsigned difference of the two clock samples. -/
def useTimeOf (t_begin t_now : Nat) : Nat := sub64 t_now t_begin

/-- The retry condition of the provider loop: only `kReturnNetworkFailed`
and `kReturnServerError` are retryable (lines 150/198/230). -/
def retryable (c : ReturnCode) : Bool :=
  c = kReturnNetworkFailed || c = kReturnServerError

/-- What the environment (server connector plus clock) yields for one
attempt: the connector's return code and the two clock samples taken
immediately before and after the synchronous call. -/
structure AttemptObs where
  code : ReturnCode
  t_begin : Nat
  t_end : Nat
deriving DecidableEq, Repr

/-- Observable trace of one execution of the retry loop. `uses` are the
computed per-attempt durations in order, `sleeps` the backoffs slept
between attempts, `budgets` the remaining budget at the start of each
attempt, `remaining` the budget at loop exit. -/
structure LoopResult where
  ret : ReturnCode
  uses : List Nat
  sleeps : List Nat
  budgets : List Nat
  remaining : Nat
deriving DecidableEq, Repr

/-- The retry loop of `ProviderApi::Register` (lines 146-158), shared
verbatim by `Deregister` (194-206) and `Heartbeat` (226-238):

```
while (retry_times-- > 0 && timeout_ms > 0) {
  uint64_t begin_time = Time::GetCurrentTimeMs();
  ret_code            = server_connector->Op(req, timeout_ms, ...);
  uint64_t use_time   = Time::GetCurrentTimeMs() - begin_time;
  if ((ret_code != kReturnNetworkFailed && ret_code != kReturnServerError) ||
      use_time >= timeout_ms) break;
  timeout_ms -= use_time;
  uint64_t backoff = std::min(timeout_ms, context_impl->GetApiRetryInterval());
  usleep(backoff * 1000);
  timeout_ms -= backoff;
}
```

`fuel` is the value of the `int retry_times` counter (the loop body runs
at most `max(retry_times, 0)` times), `idx` numbers the attempts so the
environment oracle can answer per attempt, and `ret` is the current
`ret_code`. -/
def providerLoop (env : Nat → AttemptObs) (retryInterval : Nat) :
    Nat → Nat → Nat → ReturnCode → LoopResult
  | 0, t, _, ret => ⟨ret, [], [], [], t⟩
  | fuel + 1, t, idx, ret =>
    if t = 0 then ⟨ret, [], [], [], t⟩
    else
      let a := env idx
      let use := useTimeOf a.t_begin a.t_end
      if retryable a.code = false ∨ t ≤ use then
        ⟨a.code, [use], [], [t], t⟩
      else
        let t1 := sub64 t use
        let backoff := min t1 retryInterval
        let t2 := sub64 t1 backoff
        let r := providerLoop env retryInterval fuel t2 (idx + 1) a.code
        ⟨r.ret, use :: r.uses, backoff :: r.sleeps, t :: r.budgets, r.remaining⟩

/-- Field accessors shared by the provider request accessor types
(the C++ `CheckInstance` is a template over them). -/
class InstanceFields (α : Type) where
  getServiceNamespace : α → String
  getServiceName : α → String
  getServiceToken : α → String
  getHost : α → String
  getPort : α → Int

/-- Accessors for the optional instance id of deregister/heartbeat
requests. -/
class InstanceIdField (α : Type) where
  hasInstanceId : α → Bool
  getInstanceId : α → String

/-- Accessors for the optional per-request timeout. -/
class TimeoutField (α : Type) where
  hasTimeout : α → Bool
  getTimeout : α → Nat

open InstanceFields InstanceIdField TimeoutField

/-- `CheckInstance` (provider_api.cpp lines 105-128): namespace, name,
token and host must be non-empty and the port must lie in [1, 65535]. -/
def CheckInstance {α : Type} [InstanceFields α] (r : α) : Bool :=
  if (getServiceNamespace r).isEmpty then false
  else if (getServiceName r).isEmpty then false
  else if (getServiceToken r).isEmpty then false
  else if (getHost r).isEmpty then false
  else if getPort r ≤ 0 || getPort r > 65535 then false
  else true

/-- `CheckInstanceOrId` (lines 163-177): when an instance id is present
it and the service token must be non-empty; otherwise the full
`CheckInstance` validation applies. -/
def CheckInstanceOrId {α : Type} [InstanceFields α] [InstanceIdField α] (r : α) : Bool :=
  if hasInstanceId r then
    if (getInstanceId r).isEmpty then false
    else if (getServiceToken r).isEmpty then false
    else true
  else CheckInstance r

/-- `InstanceRegisterRequest` as seen through its accessor: the fields
`CheckInstance` and the register call read. -/
structure InstanceRegisterRequest where
  service_namespace : String
  service_name : String
  service_token : String
  host : String
  port : Int
  timeout : Option Nat
deriving DecidableEq, Repr

instance regFields : InstanceFields InstanceRegisterRequest where
  getServiceNamespace r := r.service_namespace
  getServiceName r := r.service_name
  getServiceToken r := r.service_token
  getHost r := r.host
  getPort r := r.port

instance regTimeoutField : TimeoutField InstanceRegisterRequest where
  hasTimeout r := r.timeout.isSome
  getTimeout r := r.timeout.getD 0

/-- `InstanceDeregisterRequest` through its accessor. -/
structure InstanceDeregisterRequest where
  instance_id : Option String
  service_namespace : String
  service_name : String
  service_token : String
  host : String
  port : Int
  timeout : Option Nat
deriving DecidableEq, Repr

instance deregFields : InstanceFields InstanceDeregisterRequest where
  getServiceNamespace r := r.service_namespace
  getServiceName r := r.service_name
  getServiceToken r := r.service_token
  getHost r := r.host
  getPort r := r.port

instance deregIdField : InstanceIdField InstanceDeregisterRequest where
  hasInstanceId r := r.instance_id.isSome
  getInstanceId r := r.instance_id.getD ""

instance deregTimeoutField : TimeoutField InstanceDeregisterRequest where
  hasTimeout r := r.timeout.isSome
  getTimeout r := r.timeout.getD 0

/-- `InstanceHeartbeatRequest` through its accessor (same field set as
the deregister request). -/
structure InstanceHeartbeatRequest where
  instance_id : Option String
  service_namespace : String
  service_name : String
  service_token : String
  host : String
  port : Int
  timeout : Option Nat
deriving DecidableEq, Repr

instance hbFields : InstanceFields InstanceHeartbeatRequest where
  getServiceNamespace r := r.service_namespace
  getServiceName r := r.service_name
  getServiceToken r := r.service_token
  getHost r := r.host
  getPort r := r.port

instance hbIdField : InstanceIdField InstanceHeartbeatRequest where
  hasInstanceId r := r.instance_id.isSome
  getInstanceId r := r.instance_id.getD ""

instance hbTimeoutField : TimeoutField InstanceHeartbeatRequest where
  hasTimeout r := r.timeout.isSome
  getTimeout r := r.timeout.getD 0

/-- The context tunables the provider pipeline reads
(`GetApiDefaultTimeout`, `GetApiMaxRetryTimes`, `GetApiRetryInterval`).
`apiMaxRetryTimes` is a C++ `int`. -/
structure ContextTunables where
  apiDefaultTimeout : Nat
  apiMaxRetryTimes : Int
  apiRetryInterval : Nat
deriving DecidableEq, Repr

/-- `request.HasTimeout() ? request.GetTimeout() :
context_impl->GetApiDefaultTimeout()` (lines 143-144). -/
def effectiveTimeout {α : Type} [TimeoutField α] (r : α) (tun : ContextTunables) : Nat :=
  if hasTimeout r then getTimeout r else tun.apiDefaultTimeout

/-- Observable outcome of one provider API call: the returned code, the
retry-loop trace, and the number of `ApiStat::Record` calls made. -/
structure CallResult where
  ret : ReturnCode
  uses : List Nat
  sleeps : List Nat
  statRecords : Nat
deriving DecidableEq, Repr

/-- The shared body of `ProviderApi::Register` / `Deregister` /
`Heartbeat` after the request accessor is built: `ret_code` is
initialised to `kReturnInvalidArgument`; a failed validation records
one stat and returns it; otherwise the retry loop runs and its final
code is recorded once and returned. -/
def providerCall (check : Bool) (tun : ContextTunables) (env : Nat → AttemptObs)
    (t0 : Nat) : CallResult :=
  if check = false then ⟨kReturnInvalidArgument, [], [], 1⟩
  else
    let r := providerLoop env tun.apiRetryInterval tun.apiMaxRetryTimes.toNat t0 0
      kReturnInvalidArgument
    ⟨r.ret, r.uses, r.sleeps, 1⟩

/-- `ProviderApi::Register` (lines 130-161). -/
def RegisterCall (tun : ContextTunables) (env : Nat → AttemptObs)
    (req : InstanceRegisterRequest) : CallResult :=
  providerCall (CheckInstance req) tun env (effectiveTimeout req tun)

/-- `ProviderApi::Deregister` (lines 179-209). -/
def DeregisterCall (tun : ContextTunables) (env : Nat → AttemptObs)
    (req : InstanceDeregisterRequest) : CallResult :=
  providerCall (CheckInstanceOrId req) tun env (effectiveTimeout req tun)

/-- `ProviderApi::Heartbeat` (lines 211-241). -/
def HeartbeatCall (tun : ContextTunables) (env : Nat → AttemptObs)
    (req : InstanceHeartbeatRequest) : CallResult :=
  providerCall (CheckInstanceOrId req) tun env (effectiveTimeout req tun)

/-! ## Plugin manager (`plugin_manager.cpp`) -/

/-- `PluginType` (`polaris/plugin.h`), the categories named by
`PluginTypeToString`. -/
inductive PluginType where
  | kPluginServerConnector
  | kPluginLocalRegistry
  | kPluginServiceRouter
  | kPluginLoadBalancer
  | kPluginOutlierDetector
  | kPluginCircuitBreaker
  | kPluginWeightAdjuster
  | kPluginStatReporter
  | kPluginAlertReporter
deriving DecidableEq, Repr

open PluginType

/-- `PluginTypeToString` (plugin_manager.cpp lines 54-77). -/
def PluginTypeToString : PluginType → String
  | kPluginServerConnector => "ServerConnector"
  | kPluginLocalRegistry => "LocalRegistry"
  | kPluginServiceRouter => "ServiceRouter"
  | kPluginLoadBalancer => "LoadBalancer"
  | kPluginOutlierDetector => "OutlierDetector"
  | kPluginCircuitBreaker => "CircuitBreaker"
  | kPluginWeightAdjuster => "WeightAdjuster"
  | kPluginStatReporter => "StatReporter"
  | kPluginAlertReporter => "AlertReporter"

/-- The closed enum of load-balance algorithms (`LoadBalanceType`). -/
inductive LoadBalanceType where
  | random
  | ringHash
  | maglev
  | l5CstHash
  | simpleHash
  | cMurmurHash
deriving DecidableEq, Repr

/-- What a plugin factory produces: either an object that
`dynamic_cast<LoadBalancer*>` accepts — carrying its
`GetLoadBalanceType()` — or some other plugin, for which the cast
yields null. -/
inductive PluginInstance where
  | loadBalancer (lbType : LoadBalanceType)
  | otherPlugin
deriving DecidableEq, Repr

/-- A `PluginFactory` function pointer: `fid` is the pointer identity
(two factories compare equal iff they are the same pointer), `make`
describes the object each invocation produces. -/
structure PluginFactory where
  fid : Nat
  make : PluginInstance
deriving DecidableEq, Repr

/-- `std::map` lookup on an association list. -/
def mapFind {κ ν : Type} [DecidableEq κ] : List (κ × ν) → κ → Option ν
  | [], _ => none
  | (k, v) :: rest, key => if k = key then some v else mapFind rest key

/-- `std::map` `operator[]` assignment: replace the value when the key
is present, append otherwise. -/
def mapStore {κ ν : Type} [DecidableEq κ] : List (κ × ν) → κ → ν → List (κ × ν)
  | [], key, v => [(key, v)]
  | (k, w) :: rest, key, v =>
    if k = key then (key, v) :: rest else (k, w) :: mapStore rest key v

/-- The two maps of `PluginManager`: `plugin_factory_map_` keyed by
`name + PluginTypeToString(type)` and `lb_plugin_factor_map_` keyed by
`LoadBalanceType`. -/
structure PluginManager where
  plugin_factory_map_ : List (String × PluginFactory)
  lb_plugin_factor_map_ : List (LoadBalanceType × PluginFactory)
deriving DecidableEq, Repr

/-- `PluginManager::RegisterPlugin` (lines 145-175).  An existing entry
with a different factory is a conflict; otherwise the factory is stored
under `name + type`.  For load balancers the factory is invoked once,
the probe is cast to `LoadBalancer`; a failed cast returns
`kReturnPluginError` (after the store already happened); otherwise the
first factory seen for the probe's `LoadBalanceType` is recorded.
`registerPluginStore` is the part after the conflict check (lines
155-174): note the store into `plugin_factory_map_` (line 155) happens
before the load-balancer probe, so a failed cast leaves the entry in
place. -/
def PluginManager.registerPluginStore (m : PluginManager)
    (name_with_type : String) (plugin_type : PluginType)
    (plugin_factory : PluginFactory) : ReturnCode × PluginManager :=
  let m1 : PluginManager :=
    { m with plugin_factory_map_ :=
        mapStore m.plugin_factory_map_ name_with_type plugin_factory }
  if plugin_type = kPluginLoadBalancer then
    match plugin_factory.make with
    | .otherPlugin => (kReturnPluginError, m1)
    | .loadBalancer lb_type =>
      if (mapFind m1.lb_plugin_factor_map_ lb_type).isSome then (kReturnOk, m1)
      else (kReturnOk,
        { m1 with lb_plugin_factor_map_ :=
            mapStore m1.lb_plugin_factor_map_ lb_type plugin_factory })
  else (kReturnOk, m1)

/-- `PluginManager::RegisterPlugin` (lines 145-175): the conflict check
against an existing entry with a different factory, then
`registerPluginStore`. -/
def PluginManager.RegisterPlugin (m : PluginManager) (name : String)
    (plugin_type : PluginType) (plugin_factory : PluginFactory) :
    ReturnCode × PluginManager :=
  let name_with_type := name ++ PluginTypeToString plugin_type
  match mapFind m.plugin_factory_map_ name_with_type with
  | some existing =>
    if existing ≠ plugin_factory then (kReturnPluginError, m)
    else m.registerPluginStore name_with_type plugin_type plugin_factory
  | none => m.registerPluginStore name_with_type plugin_type plugin_factory

/-- `PluginManager::GetPlugin` (lines 177-192): look the factory up by
`name + type` and invoke it; `kReturnPluginError` when absent. -/
def PluginManager.GetPlugin (m : PluginManager) (name : String)
    (plugin_type : PluginType) : ReturnCode × Option PluginInstance :=
  match mapFind m.plugin_factory_map_ (name ++ PluginTypeToString plugin_type) with
  | none => (kReturnPluginError, none)
  | some f => (kReturnOk, some f.make)

/-- `PluginManager::GetLoadBalancePlugin` (lines 194-208). -/
def PluginManager.GetLoadBalancePlugin (m : PluginManager)
    (load_balance_type : LoadBalanceType) : ReturnCode × Option PluginInstance :=
  match mapFind m.lb_plugin_factor_map_ load_balance_type with
  | none => (kReturnPluginError, none)
  | some f => (kReturnOk, some f.make)

/-! ## Instance pre-update handler chain (`plugin_manager.cpp` 210-253) -/

/-- An `InstancePreUpdateHandler` function pointer, identified by its
address. -/
abbrev PreUpdateHandler : Type := Nat

/-- `PluginManager::RegisterInstancePreUpdateHandler` (lines 210-225):
a duplicate pointer yields `kReturnExistedResource`; otherwise insert at
the front when `bFront`, else push at the back. -/
def registerInstancePreUpdateHandler (hs : List PreUpdateHandler)
    (handler : PreUpdateHandler) (bFront : Bool) :
    ReturnCode × List PreUpdateHandler :=
  if handler ∈ hs then (kReturnExistedResource, hs)
  else if bFront then (kReturnOk, handler :: hs)
  else (kReturnOk, hs ++ [handler])

/-- Erase the first occurrence of `handler`. -/
def eraseFirstHandler : List PreUpdateHandler → PreUpdateHandler →
    List PreUpdateHandler
  | [], _ => []
  | h :: rest, handler =>
    if h = handler then rest else h :: eraseFirstHandler rest handler

/-- `PluginManager::DeregisterInstancePreUpdateHandler` (lines 227-237). -/
def deregisterInstancePreUpdateHandler (hs : List PreUpdateHandler)
    (handler : PreUpdateHandler) : ReturnCode × List PreUpdateHandler :=
  if handler ∈ hs then (kReturnOk, eraseFirstHandler hs handler)
  else (kReturnPluginError, hs)

/-- A `ServiceData` object as the hook chain sees it: the instances
collection reached through `GetServiceDataImpl()->data_.instances_`,
identified by an opaque id. -/
structure ServiceData where
  instances : Nat
deriving DecidableEq, Repr

/-- `PluginManager::OnPreUpdateServiceData` (lines 239-253): a null
argument or an empty chain means no handler runs; otherwise every
handler in the (snapshotted) chain is invoked in order with the old and
new instance collections.  The result is the invocation trace: which
handler ran, with which pair of arguments. -/
def onPreUpdateServiceData (hs : List PreUpdateHandler)
    (oldData newData : Option ServiceData) :
    List (PreUpdateHandler × Nat × Nat) :=
  match oldData, newData with
  | some o, some n =>
    if hs.length = 0 then []
    else hs.map fun h => (h, o.instances, n.instances)
  | _, _ => []

/-! ## Outlier-detection executor (`outlier_detection_executor.cpp`) -/

/-- A `ServiceContext` as `TimingDetect` uses it, identified by an
opaque id. -/
structure ServiceContext where
  scid : Nat
deriving DecidableEq, Repr

/-- Observable effects of one `TimingDetect` execution: the
`DetectInstance` calls with their (ignored) outcomes, the
`DecrementRef` calls, and the delay of the re-armed timing task. -/
structure DetectTrace where
  detectCalls : List (Nat × ReturnCode)
  decrementCalls : List Nat
  rearmDelayMs : Option Nat
deriving DecidableEq, Repr

/-- The `for` loop of `TimingDetect` (lines 35-40): for each service
context, call the outlier-detector chain's `DetectInstance` (its return
value is discarded) and then `DecrementRef`. -/
def timingDetectLoop (detect : ServiceContext → ReturnCode) :
    List ServiceContext → List (Nat × ReturnCode) × List Nat
  | [] => ([], [])
  | c :: rest =>
    let r := timingDetectLoop detect rest
    ((c.scid, detect c) :: r.1, c.scid :: r.2)

/-- `OutlierDetectionExecutor::TimingDetect` (lines 32-45): process the
contexts returned by `GetAllServiceContext`, then re-arm a timing task
with a 1000 ms delay. -/
def TimingDetect (detect : ServiceContext → ReturnCode)
    (all_service_contexts : List ServiceContext) : DetectTrace :=
  let r := timingDetectLoop detect all_service_contexts
  { detectCalls := r.1, decrementCalls := r.2, rearmDelayMs := some 1000 }

/-- Invariant of the retry-loop trace relative to the initial budget
`t` and retry interval `iv`: exact budget accounting (the budget at
exit plus everything deducted from it equals the initial budget), every
recorded budget bounded by the initial one, budgets non-increasing,
the sleeps/uses length relation, and every backoff at most the retry
interval. -/
def LoopInv (iv t : Nat) (r : LoopResult) : Prop :=
  r.remaining + (r.uses.take r.sleeps.length).sum + r.sleeps.sum = t
  ∧ (∀ b ∈ r.budgets, b ≤ t)
  ∧ List.Pairwise (fun x y => y ≤ x) (r.budgets ++ [r.remaining])
  ∧ (r.uses.length = r.sleeps.length ∨ r.uses.length = r.sleeps.length + 1)
  ∧ (∀ s ∈ r.sleeps, s ≤ iv)

theorem W_pos : 0 < W := by norm_num [W]

theorem sub64_lt_W (a b : Nat) : sub64 a b < W := Nat.mod_lt _ W_pos

theorem sub64_eq_sub {a b : Nat} (hb : b ≤ a) (ha : a < W) : sub64 a b = a - b := by
  have hbW : b < W := lt_of_le_of_lt hb ha
  unfold sub64
  rw [Nat.mod_eq_of_lt ha, Nat.mod_eq_of_lt hbW]
  have h1 : a + (W - b) = (a - b) + W := by omega
  rw [h1, Nat.add_mod_right]
  exact Nat.mod_eq_of_lt (by omega)

theorem mapFind_mapStore_self {κ ν : Type} [DecidableEq κ]
    (l : List (κ × ν)) (k : κ) (v : ν) : mapFind (mapStore l k v) k = some v := by
  induction l with
  | nil => simp [mapStore, mapFind]
  | cons p rest ih =>
    by_cases h : p.1 = k
    · simp [mapStore, h, mapFind]
    · simp [mapStore, h, mapFind, ih]

theorem sum_take_le (l : List Nat) (k : Nat) : (l.take k).sum ≤ l.sum := by
  induction l generalizing k with
  | nil => simp
  | cons x rest ih =>
    cases k with
    | zero => simp
    | succ k => simpa using Nat.add_le_add_left (ih k) x

theorem dropLast_sum_le (l : List Nat) : l.dropLast.sum ≤ l.sum := by
  rw [List.dropLast_eq_take]
  exact sum_take_le l (l.length - 1)

theorem sum_le_dropLast_sum_add_getLast (l : List Nat) :
    l.sum ≤ l.dropLast.sum + l.getLast?.getD 0 := by
  induction l with
  | nil => simp
  | cons x rest ih =>
    cases rest with
    | nil => simp
    | cons y t =>
      simp only [List.dropLast_cons₂, List.sum_cons, List.getLast?_cons_cons]
      have := ih
      simp only [List.sum_cons] at this
      omega

/-- Main invariant of the provider retry loop. -/
theorem providerLoop_inv (env : Nat → AttemptObs) (iv : Nat) :
    ∀ (fuel t idx : Nat) (ret : ReturnCode), t < W →
      LoopInv iv t (providerLoop env iv fuel t idx ret) := by
  intro fuel
  induction fuel with
  | zero =>
    intro t idx ret ht
    simp [providerLoop, LoopInv]
  | succ n ih =>
    intro t idx ret ht
    by_cases h0 : t = 0
    · subst h0
      simp [providerLoop, LoopInv]
    · simp only [providerLoop]
      rw [if_neg h0]
      by_cases hbr : retryable (env idx).code = false
          ∨ t ≤ useTimeOf (env idx).t_begin (env idx).t_end
      · rw [if_pos hbr]
        refine ⟨by simp, ?_, ?_, ?_, ?_⟩
        · intro b hb
          simp at hb
          omega
        · simp
        · simp
        · simp
      · rw [if_neg hbr]
        push_neg at hbr
        obtain ⟨_, hlt⟩ := hbr
        have huse : useTimeOf (env idx).t_begin (env idx).t_end < t := hlt
        have h1 : sub64 t (useTimeOf (env idx).t_begin (env idx).t_end)
            = t - useTimeOf (env idx).t_begin (env idx).t_end :=
          sub64_eq_sub (le_of_lt huse) ht
        rw [h1]
        have hbk : min (t - useTimeOf (env idx).t_begin (env idx).t_end) iv
            ≤ t - useTimeOf (env idx).t_begin (env idx).t_end :=
          Nat.min_le_left _ _
        have h2 : sub64 (t - useTimeOf (env idx).t_begin (env idx).t_end)
              (min (t - useTimeOf (env idx).t_begin (env idx).t_end) iv)
            = (t - useTimeOf (env idx).t_begin (env idx).t_end)
              - min (t - useTimeOf (env idx).t_begin (env idx).t_end) iv :=
          sub64_eq_sub hbk (by omega)
        rw [h2]
        set use := useTimeOf (env idx).t_begin (env idx).t_end with hdefuse
        set backoff := min (t - use) iv with hdefbk
        set t2 := t - use - backoff with hdeft2
        have ht2 : t2 < W := by omega
        have hrec := ih t2 (idx + 1) (env idx).code ht2
        set r := providerLoop env iv n t2 (idx + 1) (env idx).code with hdefr
        obtain ⟨racc, rbud, rpair, rlen, rslp⟩ := hrec
        have hrem : r.remaining ≤ t2 := by omega
        refine ⟨?_, ?_, ?_, ?_, ?_⟩
        · simp only [List.length_cons, List.take_succ_cons, List.sum_cons]
          omega
        · intro b hb
          simp only [List.mem_cons] at hb
          rcases hb with hb | hb
          · omega
          · have := rbud b hb
            omega
        · simp only [List.cons_append, List.pairwise_cons]
          refine ⟨?_, rpair⟩
          intro x hx
          simp only [List.mem_append, List.mem_singleton] at hx
          rcases hx with hx | hx
          · have := rbud x hx
            omega
          · subst hx
            omega
        · simp only [List.length_cons]
          omega
        · intro s hs
          simp only [List.mem_cons] at hs
          rcases hs with hs | hs
          · subst hs
            exact Nat.min_le_right _ _
          · exact rslp s hs

/-- In the retry loop, every attempt except possibly the last returned
a retryable code, and any attempt that returned a non-retryable code is
the last one, its code being the loop's result. -/
theorem providerLoop_codes (env : Nat → AttemptObs) (iv : Nat) :
    ∀ (fuel t idx : Nat) (ret : ReturnCode) (j : Nat),
      j < (providerLoop env iv fuel t idx ret).uses.length →
      retryable (env (idx + j)).code = false →
      (providerLoop env iv fuel t idx ret).uses.length = j + 1
      ∧ (providerLoop env iv fuel t idx ret).ret = (env (idx + j)).code := by
  intro fuel
  induction fuel with
  | zero =>
    intro t idx ret j hj _
    simp [providerLoop] at hj
  | succ n ih =>
    intro t idx ret j hj hterm
    by_cases h0 : t = 0
    · subst h0
      simp [providerLoop] at hj
    · simp only [providerLoop] at hj hterm ⊢
      rw [if_neg h0] at hj ⊢
      by_cases hbr : retryable (env idx).code = false
          ∨ t ≤ useTimeOf (env idx).t_begin (env idx).t_end
      · rw [if_pos hbr] at hj ⊢
        simp only [List.length_singleton] at hj
        have hj0 : j = 0 := by omega
        subst hj0
        simp
      · rw [if_neg hbr] at hj ⊢
        push_neg at hbr
        obtain ⟨hrty, _⟩ := hbr
        simp only [List.length_cons] at hj ⊢
        cases j with
        | zero =>
          rw [Nat.add_zero] at hterm
          exact absurd hterm hrty
        | succ j =>
          have hj' : j < (providerLoop env iv n
              (sub64 (sub64 t (useTimeOf (env idx).t_begin (env idx).t_end))
                (min (sub64 t (useTimeOf (env idx).t_begin (env idx).t_end)) iv))
              (idx + 1) (env idx).code).uses.length := by omega
          have hterm' : retryable (env (idx + 1 + j)).code = false := by
            have : idx + 1 + j = idx + (j + 1) := by omega
            rw [this]
            exact hterm
          have := ih _ (idx + 1) (env idx).code j hj' hterm'
          constructor
          · omega
          · have hidx : idx + 1 + j = idx + (j + 1) := by omega
            rw [hidx] at this
            exact this.2

/-- Budget bound for the retry loop, derived from `providerLoop_inv`:
the deducted work (all sleeps plus every attempt duration except the
final one) fits in the initial budget, the grand total exceeds it by at
most the final attempt's duration, and every backoff is at most the
retry interval. -/
theorem providerLoop_budget (env : Nat → AttemptObs) (iv fuel t idx : Nat)
    (ret : ReturnCode) (ht : t < W) :
    (providerLoop env iv fuel t idx ret).uses.dropLast.sum
        + (providerLoop env iv fuel t idx ret).sleeps.sum ≤ t
    ∧ (providerLoop env iv fuel t idx ret).uses.sum
        + (providerLoop env iv fuel t idx ret).sleeps.sum
        ≤ t + ((providerLoop env iv fuel t idx ret).uses.getLast?).getD 0
    ∧ (∀ s ∈ (providerLoop env iv fuel t idx ret).sleeps, s ≤ iv) := by
  obtain ⟨hacc, _, _, hlen, hslp⟩ := providerLoop_inv env iv fuel t idx ret ht
  set r := providerLoop env iv fuel t idx ret with hdefr
  have htake : (r.uses.take r.sleeps.length).sum + r.sleeps.sum ≤ t := by omega
  have hdrop : r.uses.dropLast.sum ≤ (r.uses.take r.sleeps.length).sum := by
    rcases hlen with hlen | hlen
    · calc r.uses.dropLast.sum ≤ r.uses.sum := dropLast_sum_le _
        _ = (r.uses.take r.sleeps.length).sum := by rw [← hlen, List.take_length]
    · rw [List.dropLast_eq_take]
      rw [hlen]
      simp
  refine ⟨by omega, ?_, hslp⟩
  have := sum_le_dropLast_sum_add_getLast r.uses
  omega

/-- `providerCall` lifted version of `providerLoop_codes`. -/
theorem providerCall_terminal (check : Bool) (tun : ContextTunables)
    (env : Nat → AttemptObs) (t0 j : Nat)
    (hj : j < (providerCall check tun env t0).uses.length)
    (hterm : retryable (env j).code = false) :
    (providerCall check tun env t0).uses.length = j + 1
    ∧ (providerCall check tun env t0).ret = (env j).code := by
  by_cases hc : check = false
  · simp [providerCall, hc] at hj
  · simp only [providerCall, if_neg hc] at hj ⊢
    have hterm' : retryable (env (0 + j)).code = false := by
      rw [Nat.zero_add]
      exact hterm
    have h := providerLoop_codes env tun.apiRetryInterval tun.apiMaxRetryTimes.toNat
      t0 0 kReturnInvalidArgument j hj hterm'
    rw [Nat.zero_add] at h
    exact h

/-- `providerCall` lifted version of `providerLoop_budget`. -/
theorem providerCall_budget (check : Bool) (tun : ContextTunables)
    (env : Nat → AttemptObs) (t0 : Nat) (ht : t0 < W) :
    (providerCall check tun env t0).uses.dropLast.sum
        + (providerCall check tun env t0).sleeps.sum ≤ t0
    ∧ (providerCall check tun env t0).uses.sum
        + (providerCall check tun env t0).sleeps.sum
        ≤ t0 + ((providerCall check tun env t0).uses.getLast?).getD 0
    ∧ (∀ s ∈ (providerCall check tun env t0).sleeps, s ≤ tun.apiRetryInterval) := by
  by_cases hc : check = false
  · simp [providerCall, hc]
  · simp only [providerCall, if_neg hc]
    exact providerLoop_budget env tun.apiRetryInterval tun.apiMaxRetryTimes.toNat
      t0 0 kReturnInvalidArgument ht

/-- Claim C1: for every provider call (Register, Deregister, Heartbeat),
if any server-connector attempt returns a code outside
{`kReturnNetworkFailed`, `kReturnServerError`}, no further connector
attempt is issued and that code is the one returned to the caller. -/
theorem C1_terminal_code_stops_retry (tun : ContextTunables)
    (env : Nat → AttemptObs) (j : Nat) :
    (∀ req : InstanceRegisterRequest,
        j < (RegisterCall tun env req).uses.length →
        retryable (env j).code = false →
        (RegisterCall tun env req).uses.length = j + 1
        ∧ (RegisterCall tun env req).ret = (env j).code)
    ∧ (∀ req : InstanceDeregisterRequest,
        j < (DeregisterCall tun env req).uses.length →
        retryable (env j).code = false →
        (DeregisterCall tun env req).uses.length = j + 1
        ∧ (DeregisterCall tun env req).ret = (env j).code)
    ∧ (∀ req : InstanceHeartbeatRequest,
        j < (HeartbeatCall tun env req).uses.length →
        retryable (env j).code = false →
        (HeartbeatCall tun env req).uses.length = j + 1
        ∧ (HeartbeatCall tun env req).ret = (env j).code) :=
  ⟨fun _ hj hterm => providerCall_terminal _ tun env _ j hj hterm,
   fun _ hj hterm => providerCall_terminal _ tun env _ j hj hterm,
   fun _ hj hterm => providerCall_terminal _ tun env _ j hj hterm⟩

/-- Witness for C1: a first attempt returning `kReturnOk` ends the loop
with exactly one connector attempt and `kReturnOk` as the result. -/
theorem C1_witness :
    (RegisterCall ⟨1000, 3, 100⟩ (fun _ => ⟨kReturnOk, 0, 10⟩)
        ⟨"ns", "svc", "tok", "host", 80, none⟩).uses.length = 1
    ∧ (RegisterCall ⟨1000, 3, 100⟩ (fun _ => ⟨kReturnOk, 0, 10⟩)
        ⟨"ns", "svc", "tok", "host", 80, none⟩).ret = kReturnOk :=
  (C1_terminal_code_stops_retry ⟨1000, 3, 100⟩ (fun _ => ⟨kReturnOk, 0, 10⟩) 0).1
    ⟨"ns", "svc", "tok", "host", 80, none⟩ (by decide) (by decide)

/-- Claim C2: for every provider call with effective initial budget
`T₀` (the request's timeout if set, else the context default), the
deducted attempt durations plus inter-attempt sleeps never exceed `T₀`,
each backoff is at most the retry interval, and the grand total exceeds
`T₀` by at most the duration of the final in-flight attempt. -/
theorem C2_timeout_budget (tun : ContextTunables) (env : Nat → AttemptObs) :
    (∀ req : InstanceRegisterRequest, effectiveTimeout req tun < W →
        (RegisterCall tun env req).uses.dropLast.sum
            + (RegisterCall tun env req).sleeps.sum ≤ effectiveTimeout req tun
        ∧ (RegisterCall tun env req).uses.sum + (RegisterCall tun env req).sleeps.sum
            ≤ effectiveTimeout req tun
              + ((RegisterCall tun env req).uses.getLast?).getD 0
        ∧ (∀ s ∈ (RegisterCall tun env req).sleeps, s ≤ tun.apiRetryInterval))
    ∧ (∀ req : InstanceDeregisterRequest, effectiveTimeout req tun < W →
        (DeregisterCall tun env req).uses.dropLast.sum
            + (DeregisterCall tun env req).sleeps.sum ≤ effectiveTimeout req tun
        ∧ (DeregisterCall tun env req).uses.sum + (DeregisterCall tun env req).sleeps.sum
            ≤ effectiveTimeout req tun
              + ((DeregisterCall tun env req).uses.getLast?).getD 0
        ∧ (∀ s ∈ (DeregisterCall tun env req).sleeps, s ≤ tun.apiRetryInterval))
    ∧ (∀ req : InstanceHeartbeatRequest, effectiveTimeout req tun < W →
        (HeartbeatCall tun env req).uses.dropLast.sum
            + (HeartbeatCall tun env req).sleeps.sum ≤ effectiveTimeout req tun
        ∧ (HeartbeatCall tun env req).uses.sum + (HeartbeatCall tun env req).sleeps.sum
            ≤ effectiveTimeout req tun
              + ((HeartbeatCall tun env req).uses.getLast?).getD 0
        ∧ (∀ s ∈ (HeartbeatCall tun env req).sleeps, s ≤ tun.apiRetryInterval)) :=
  ⟨fun _ ht => providerCall_budget _ tun env _ ht,
   fun _ ht => providerCall_budget _ tun env _ ht,
   fun _ ht => providerCall_budget _ tun env _ ht⟩

/-- Witness for C2: the retry-on-network scenario (three 50 ms network
failures, 100 ms backoffs, 1000 ms budget) satisfies all the bounds. -/
theorem C2_witness :
    ((RegisterCall ⟨1000, 3, 100⟩ (fun _ => ⟨kReturnNetworkFailed, 0, 50⟩)
        ⟨"ns", "svc", "tok", "host", 80, none⟩).uses.dropLast.sum
      + (RegisterCall ⟨1000, 3, 100⟩ (fun _ => ⟨kReturnNetworkFailed, 0, 50⟩)
        ⟨"ns", "svc", "tok", "host", 80, none⟩).sleeps.sum
      ≤ effectiveTimeout (⟨"ns", "svc", "tok", "host", 80, none⟩ :
          InstanceRegisterRequest) ⟨1000, 3, 100⟩)
    ∧ ((RegisterCall ⟨1000, 3, 100⟩ (fun _ => ⟨kReturnNetworkFailed, 0, 50⟩)
        ⟨"ns", "svc", "tok", "host", 80, none⟩).uses.sum
      + (RegisterCall ⟨1000, 3, 100⟩ (fun _ => ⟨kReturnNetworkFailed, 0, 50⟩)
        ⟨"ns", "svc", "tok", "host", 80, none⟩).sleeps.sum
      ≤ effectiveTimeout (⟨"ns", "svc", "tok", "host", 80, none⟩ :
          InstanceRegisterRequest) ⟨1000, 3, 100⟩
        + ((RegisterCall ⟨1000, 3, 100⟩ (fun _ => ⟨kReturnNetworkFailed, 0, 50⟩)
          ⟨"ns", "svc", "tok", "host", 80, none⟩).uses.getLast?).getD 0)
    ∧ (∀ s ∈ (RegisterCall ⟨1000, 3, 100⟩ (fun _ => ⟨kReturnNetworkFailed, 0, 50⟩)
        ⟨"ns", "svc", "tok", "host", 80, none⟩).sleeps,
        s ≤ (ContextTunables.mk 1000 3 100).apiRetryInterval) :=
  (C2_timeout_budget ⟨1000, 3, 100⟩ (fun _ => ⟨kReturnNetworkFailed, 0, 50⟩)).1
    ⟨"ns", "svc", "tok", "host", 80, none⟩ (by decide)

/-- Claim C3: for every provider call whose request passes validation,
if `api_max_retry_times = 0` then no server-connector attempt is made
and the returned code is the pre-initialised `kReturnInvalidArgument`
(with exactly one stat record). -/
theorem C3_zero_retry_returns_invalid_argument (tun : ContextTunables)
    (env : Nat → AttemptObs) (hN : tun.apiMaxRetryTimes = 0) :
    (∀ req : InstanceRegisterRequest, CheckInstance req = true →
        RegisterCall tun env req = ⟨kReturnInvalidArgument, [], [], 1⟩)
    ∧ (∀ req : InstanceDeregisterRequest, CheckInstanceOrId req = true →
        DeregisterCall tun env req = ⟨kReturnInvalidArgument, [], [], 1⟩)
    ∧ (∀ req : InstanceHeartbeatRequest, CheckInstanceOrId req = true →
        HeartbeatCall tun env req = ⟨kReturnInvalidArgument, [], [], 1⟩) := by
  refine ⟨fun req hc => ?_, fun req hc => ?_, fun req hc => ?_⟩ <;>
    simp [RegisterCall, DeregisterCall, HeartbeatCall, providerCall, hc, hN,
      providerLoop]

/-- Witness for C3: a well-formed register request with
`api_max_retry_times = 0` yields `kReturnInvalidArgument` and an empty
attempt trace. -/
theorem C3_witness :
    CheckInstance (⟨"ns", "svc", "tok", "host", 80, none⟩ :
        InstanceRegisterRequest) = true
    ∧ RegisterCall ⟨1000, 0, 100⟩ (fun _ => ⟨kReturnOk, 0, 10⟩)
        ⟨"ns", "svc", "tok", "host", 80, none⟩
      = ⟨kReturnInvalidArgument, [], [], 1⟩ :=
  ⟨by decide,
   (C3_zero_retry_returns_invalid_argument ⟨1000, 0, 100⟩
      (fun _ => ⟨kReturnOk, 0, 10⟩) rfl).1
     ⟨"ns", "svc", "tok", "host", 80, none⟩ (by decide)⟩

/-- Claim C4: a Register request with an empty namespace, name, token
or host, or a port outside [1, 65535], returns `kReturnInvalidArgument`
with no server-connector attempt and exactly one stat record. -/
theorem C4_register_validation (tun : ContextTunables) (env : Nat → AttemptObs)
    (req : InstanceRegisterRequest)
    (hbad : req.service_namespace = "" ∨ req.service_name = ""
        ∨ req.service_token = "" ∨ req.host = ""
        ∨ req.port ≤ 0 ∨ 65535 < req.port) :
    RegisterCall tun env req = ⟨kReturnInvalidArgument, [], [], 1⟩ := by
  have hc : CheckInstance req = false := by
    simp only [CheckInstance, regFields, getServiceNamespace, getServiceName,
      getServiceToken, getHost, getPort]
    rcases hbad with h | h | h | h | h | h <;> simp [h, String.isEmpty_iff]
  simp [RegisterCall, providerCall, hc]

/-- Witness for C4: `port = 0` (the spec's concrete scenario). -/
theorem C4_witness :
    RegisterCall ⟨1000, 3, 100⟩ (fun _ => ⟨kReturnOk, 0, 10⟩)
        ⟨"ns", "svc", "tok", "host", 0, none⟩
      = ⟨kReturnInvalidArgument, [], [], 1⟩ :=
  C4_register_validation ⟨1000, 3, 100⟩ (fun _ => ⟨kReturnOk, 0, 10⟩)
    ⟨"ns", "svc", "tok", "host", 0, none⟩ (by norm_num)

/-- Counterexample to claim C5: with clock samples `t_begin = 5` and
`monotonic_now = 3` the computed per-attempt duration is the wrapped
value `2 ^ 64 - 2`, not 0, and that wrapped value is exactly what the
retry loop uses. -/
theorem C5_counterexample :
    3 < 5
    ∧ useTimeOf 5 3 ≠ 0
    ∧ (providerLoop (fun _ => ⟨kReturnNetworkFailed, 5, 3⟩) 100 3 1000 0
        kReturnInvalidArgument).uses = [2 ^ 64 - 2] :=
  ⟨by norm_num, by decide, by decide⟩

/-- Claim C5 (amended): the per-attempt duration is the wrap-around
`uint64` difference of the two clock samples: when `monotonic_now ≥
t_begin` it equals the true elapsed time, but when `monotonic_now <
t_begin` it is the non-zero wrapped value `2 ^ 64 - (t_begin -
monotonic_now)`, not 0. -/
theorem C5_use_time_wraparound (t_begin t_now : Nat)
    (hb : t_begin < W) (hn : t_now < W) :
    (t_begin ≤ t_now → useTimeOf t_begin t_now = t_now - t_begin)
    ∧ (t_now < t_begin →
        useTimeOf t_begin t_now = W - (t_begin - t_now)
        ∧ useTimeOf t_begin t_now ≠ 0) := by
  constructor
  · intro h
    exact sub64_eq_sub h hn
  · intro h
    have h1 : useTimeOf t_begin t_now = W - (t_begin - t_now) := by
      unfold useTimeOf sub64
      rw [Nat.mod_eq_of_lt hn, Nat.mod_eq_of_lt hb]
      have h2 : t_now + (W - t_begin) < W := by omega
      rw [Nat.mod_eq_of_lt h2]
      omega
    refine ⟨h1, ?_⟩
    rw [h1]
    omega

/-- Witness for the amended C5, at the clock samples of the
counterexample. -/
theorem C5_witness :
    useTimeOf 5 3 = W - (5 - 3) ∧ useTimeOf 5 3 ≠ 0 :=
  (C5_use_time_wraparound 5 3 (by norm_num [W]) (by norm_num [W])).2
    (by norm_num)

/-- Counterexample to claim C6: registering a factory whose probe
instance cannot be cast to `LoadBalancer` into an empty manager returns
`kReturnPluginError`, yet the `(name, type)` entry IS left in the
plugin factory map (it is stored before the probe). -/
theorem C6_counterexample :
    (PluginManager.RegisterPlugin ⟨[], []⟩ "bad" PluginType.kPluginLoadBalancer
        ⟨7, PluginInstance.otherPlugin⟩).1 = kReturnPluginError
    ∧ mapFind (PluginManager.RegisterPlugin ⟨[], []⟩ "bad"
        PluginType.kPluginLoadBalancer
        ⟨7, PluginInstance.otherPlugin⟩).2.plugin_factory_map_
        "badLoadBalancer" = some ⟨7, PluginInstance.otherPlugin⟩ :=
  ⟨rfl, rfl⟩

/-- Claim C6 (amended): for every `Register(name, kPluginLoadBalancer,
factory)` call that reaches the probe (no conflicting entry) and whose
probe instance cannot be cast to `LoadBalancer`, the call returns
`kReturnPluginError` and the load-balance-type index is untouched, but
the `(name, type)` entry — stored before the probe — remains in the
plugin factory map. -/
theorem C6_cast_failure_leaves_entry (m : PluginManager) (name : String)
    (f : PluginFactory) (hf : f.make = PluginInstance.otherPlugin)
    (hm : mapFind m.plugin_factory_map_ (name ++ "LoadBalancer") = none
        ∨ mapFind m.plugin_factory_map_ (name ++ "LoadBalancer") = some f) :
    (m.RegisterPlugin name PluginType.kPluginLoadBalancer f).1 = kReturnPluginError
    ∧ mapFind
        (m.RegisterPlugin name PluginType.kPluginLoadBalancer f).2.plugin_factory_map_
        (name ++ "LoadBalancer") = some f
    ∧ (m.RegisterPlugin name PluginType.kPluginLoadBalancer f).2.lb_plugin_factor_map_
        = m.lb_plugin_factor_map_ := by
  have hstore :
      (m.registerPluginStore (name ++ "LoadBalancer") PluginType.kPluginLoadBalancer f).1
        = kReturnPluginError
      ∧ mapFind (m.registerPluginStore (name ++ "LoadBalancer")
          PluginType.kPluginLoadBalancer f).2.plugin_factory_map_
          (name ++ "LoadBalancer") = some f
      ∧ (m.registerPluginStore (name ++ "LoadBalancer")
          PluginType.kPluginLoadBalancer f).2.lb_plugin_factor_map_
          = m.lb_plugin_factor_map_ := by
    simp only [PluginManager.registerPluginStore, hf, if_pos rfl]
    exact ⟨by trivial, mapFind_mapStore_self _ _ _, by trivial⟩
  have hkey : name ++ PluginTypeToString PluginType.kPluginLoadBalancer
      = name ++ "LoadBalancer" := rfl
  rcases hm with hm | hm
  · simpa [PluginManager.RegisterPlugin, hkey, hm] using hstore
  · simpa [PluginManager.RegisterPlugin, hkey, hm] using hstore

/-- Witness for the amended C6, at the counterexample's input. -/
theorem C6_witness :
    (PluginManager.RegisterPlugin ⟨[], []⟩ "bad" PluginType.kPluginLoadBalancer
        ⟨7, PluginInstance.otherPlugin⟩).1 = kReturnPluginError
    ∧ mapFind (PluginManager.RegisterPlugin ⟨[], []⟩ "bad"
        PluginType.kPluginLoadBalancer
        ⟨7, PluginInstance.otherPlugin⟩).2.plugin_factory_map_
        ("bad" ++ "LoadBalancer") = some ⟨7, PluginInstance.otherPlugin⟩
    ∧ (PluginManager.RegisterPlugin ⟨[], []⟩ "bad" PluginType.kPluginLoadBalancer
        ⟨7, PluginInstance.otherPlugin⟩).2.lb_plugin_factor_map_
        = (⟨[], []⟩ : PluginManager).lb_plugin_factor_map_ :=
  C6_cast_failure_leaves_entry ⟨[], []⟩ "bad" ⟨7, PluginInstance.otherPlugin⟩ rfl
    (Or.inl rfl)

/-- Claim C7: for every `LoadBalanceType`, only the first factory
registered for that type is reachable via `GetLoadBalancePlugin`:
a subsequent registration of a load balancer with the same
`LoadBalanceType` leaves the type-indexed map unchanged. -/
theorem C7_first_load_balancer_registration_wins (m : PluginManager)
    (name : String) (f g : PluginFactory) (t : LoadBalanceType)
    (hf : f.make = PluginInstance.loadBalancer t)
    (hm : mapFind m.lb_plugin_factor_map_ t = some g) :
    (m.RegisterPlugin name PluginType.kPluginLoadBalancer f).2.lb_plugin_factor_map_
        = m.lb_plugin_factor_map_
    ∧ (m.RegisterPlugin name PluginType.kPluginLoadBalancer f).2.GetLoadBalancePlugin t
        = (kReturnOk, some g.make) := by
  have hsome : (mapFind m.lb_plugin_factor_map_ t).isSome := by
    rw [hm]
    rfl
  have hstore :
      (m.registerPluginStore (name ++ "LoadBalancer")
          PluginType.kPluginLoadBalancer f).2.lb_plugin_factor_map_
        = m.lb_plugin_factor_map_ := by
    simp only [PluginManager.registerPluginStore, hf, if_pos rfl, hsome]
    simp
  have hget : ∀ m' : PluginManager,
      m'.lb_plugin_factor_map_ = m.lb_plugin_factor_map_ →
      m'.GetLoadBalancePlugin t = (kReturnOk, some g.make) := by
    intro m' hm'
    simp [PluginManager.GetLoadBalancePlugin, hm', hm]
  have hkey : name ++ PluginTypeToString PluginType.kPluginLoadBalancer
      = name ++ "LoadBalancer" := rfl
  unfold PluginManager.RegisterPlugin
  rcases hpf : mapFind m.plugin_factory_map_
      (name ++ PluginTypeToString PluginType.kPluginLoadBalancer) with _ | existing
  · rw [hkey] at hpf
    simp only [hkey, hpf]
    exact ⟨hstore, hget _ hstore⟩
  · rw [hkey] at hpf
    simp only [hkey, hpf]
    by_cases he : existing ≠ f
    · simp only [if_pos he]
      exact ⟨by trivial, hget m rfl⟩
    · simp only [if_neg he]
      exact ⟨hstore, hget _ hstore⟩

/-- Witness for C7: after `⟨1, random⟩` is registered under "a", a
second random load balancer `⟨2, random⟩` registered under "b" leaves
the type index unchanged and `GetLoadBalancePlugin` still reaches the
first factory. -/
theorem C7_witness :
    (PluginManager.RegisterPlugin
        ⟨[("aLoadBalancer", ⟨1, PluginInstance.loadBalancer LoadBalanceType.random⟩)],
         [(LoadBalanceType.random, ⟨1, PluginInstance.loadBalancer LoadBalanceType.random⟩)]⟩
        "b" PluginType.kPluginLoadBalancer
        ⟨2, PluginInstance.loadBalancer LoadBalanceType.random⟩).2.lb_plugin_factor_map_
      = [(LoadBalanceType.random, ⟨1, PluginInstance.loadBalancer LoadBalanceType.random⟩)]
    ∧ (PluginManager.RegisterPlugin
        ⟨[("aLoadBalancer", ⟨1, PluginInstance.loadBalancer LoadBalanceType.random⟩)],
         [(LoadBalanceType.random, ⟨1, PluginInstance.loadBalancer LoadBalanceType.random⟩)]⟩
        "b" PluginType.kPluginLoadBalancer
        ⟨2, PluginInstance.loadBalancer LoadBalanceType.random⟩).2.GetLoadBalancePlugin
        LoadBalanceType.random
      = (kReturnOk, some (PluginInstance.loadBalancer LoadBalanceType.random)) :=
  C7_first_load_balancer_registration_wins
    ⟨[("aLoadBalancer", ⟨1, PluginInstance.loadBalancer LoadBalanceType.random⟩)],
     [(LoadBalanceType.random, ⟨1, PluginInstance.loadBalancer LoadBalanceType.random⟩)]⟩
    "b" ⟨2, PluginInstance.loadBalancer LoadBalanceType.random⟩
    ⟨1, PluginInstance.loadBalancer LoadBalanceType.random⟩
    LoadBalanceType.random rfl rfl

/-- Claim C8: pre-update handlers are invoked in registration order —
a handler registered at the head runs before all previously registered
ones, one registered at the back after them; a duplicate pointer is
rejected with `kReturnExistedResource`; and when both `ServiceData`
arguments are non-null every invoked handler receives the old and new
instance collections of exactly those arguments. -/
theorem C8_preupdate_hook_chain (hs : List PreUpdateHandler)
    (h : PreUpdateHandler) (o n : ServiceData) :
    (h ∉ hs → (registerInstancePreUpdateHandler hs h true).2 = h :: hs)
    ∧ (h ∉ hs → (registerInstancePreUpdateHandler hs h false).2 = hs ++ [h])
    ∧ (h ∈ hs → registerInstancePreUpdateHandler hs h true
        = (kReturnExistedResource, hs))
    ∧ (onPreUpdateServiceData hs (some o) (some n)).map Prod.fst = hs
    ∧ (∀ e ∈ onPreUpdateServiceData hs (some o) (some n),
        e.2.1 = o.instances ∧ e.2.2 = n.instances) := by
  refine ⟨fun hn => by simp [registerInstancePreUpdateHandler, hn],
          fun hn => by simp [registerInstancePreUpdateHandler, hn],
          fun hmem => by simp [registerInstancePreUpdateHandler, hmem],
          ?_, ?_⟩
  · by_cases hz : hs.length = 0
    · simp [onPreUpdateServiceData, hz, List.length_eq_zero.mp hz]
    · simp only [onPreUpdateServiceData, if_neg hz, List.map_map]
      have hcomp : (Prod.fst ∘ fun h : PreUpdateHandler =>
          (h, o.instances, n.instances)) = id := rfl
      rw [hcomp, List.map_id]
  · intro e he
    by_cases hz : hs.length = 0
    · simp [onPreUpdateServiceData, hz] at he
    · simp only [onPreUpdateServiceData, if_neg hz, List.mem_map] at he
      obtain ⟨x, _, rfl⟩ := he
      exact ⟨rfl, rfl⟩

/-- Witness for C8: a three-handler chain built with one head
insertion, invoked with two concrete `ServiceData` values. -/
theorem C8_witness :
    (registerInstancePreUpdateHandler [5, 6] 4 true).2 = [4, 5, 6]
    ∧ (registerInstancePreUpdateHandler [5, 6] 4 false).2 = [5, 6, 4]
    ∧ (onPreUpdateServiceData [4, 5, 6] (some ⟨10⟩) (some ⟨20⟩)).map Prod.fst
        = [4, 5, 6]
    ∧ (∀ e ∈ onPreUpdateServiceData [4, 5, 6] (some ⟨10⟩) (some ⟨20⟩),
        e.2.1 = (10 : Nat) ∧ e.2.2 = (20 : Nat)) :=
  ⟨(C8_preupdate_hook_chain [5, 6] 4 ⟨10⟩ ⟨20⟩).1 (by decide),
   (C8_preupdate_hook_chain [5, 6] 4 ⟨10⟩ ⟨20⟩).2.1 (by decide),
   (C8_preupdate_hook_chain [4, 5, 6] 4 ⟨10⟩ ⟨20⟩).2.2.2.1,
   (C8_preupdate_hook_chain [4, 5, 6] 4 ⟨10⟩ ⟨20⟩).2.2.2.2⟩

theorem timingDetectLoop_spec (detect : ServiceContext → ReturnCode)
    (cs : List ServiceContext) :
    (timingDetectLoop detect cs).2 = cs.map ServiceContext.scid
    ∧ (timingDetectLoop detect cs).1.map Prod.fst = cs.map ServiceContext.scid := by
  induction cs with
  | nil => simp [timingDetectLoop]
  | cons c rest ih => simp [timingDetectLoop, ih.1, ih.2]

/-- Claim C9: every execution of `TimingDetect` calls `DecrementRef`
exactly once on each service context returned by
`GetAllServiceContext`, in order, regardless of the outcome of each
`DetectInstance` call, and re-arms itself with a 1000 ms timing task
after processing all services. -/
theorem C9_timing_detect_decrements_once_and_rearms
    (detect : ServiceContext → ReturnCode) (cs : List ServiceContext) :
    (TimingDetect detect cs).decrementCalls = cs.map ServiceContext.scid
    ∧ (TimingDetect detect cs).detectCalls.map Prod.fst = cs.map ServiceContext.scid
    ∧ (TimingDetect detect cs).rearmDelayMs = some 1000 :=
  ⟨(timingDetectLoop_spec detect cs).1, (timingDetectLoop_spec detect cs).2, rfl⟩

/-- Claim C10: in the provider retry loop the remaining-budget variable
never wraps modulo `2 ^ 64`: the budget at exit plus the genuinely
deducted attempt durations and backoffs equals the initial budget
exactly (as unbounded naturals), every per-attempt budget is at most
the initial one, and the budgets are non-increasing from attempt to
attempt down to the exit value. -/
theorem C10_budget_subtractions_never_wrap (env : Nat → AttemptObs)
    (iv fuel t idx : Nat) (ret : ReturnCode) (ht : t < W) :
    (providerLoop env iv fuel t idx ret).remaining
        + ((providerLoop env iv fuel t idx ret).uses.take
            (providerLoop env iv fuel t idx ret).sleeps.length).sum
        + (providerLoop env iv fuel t idx ret).sleeps.sum = t
    ∧ (∀ b ∈ (providerLoop env iv fuel t idx ret).budgets, b ≤ t)
    ∧ List.Pairwise (fun x y => y ≤ x)
        ((providerLoop env iv fuel t idx ret).budgets
          ++ [(providerLoop env iv fuel t idx ret).remaining]) := by
  obtain ⟨h1, h2, h3, _, _⟩ := providerLoop_inv env iv fuel t idx ret ht
  exact ⟨h1, h2, h3⟩

/-- Witness for C10: the budget-exhaustion scenario (two 400 ms server
errors against a 1000 ms budget with 100 ms backoffs). -/
theorem C10_witness :
    (providerLoop (fun _ => ⟨kReturnServerError, 0, 400⟩) 100 3 1000 0
        kReturnInvalidArgument).remaining
      + ((providerLoop (fun _ => ⟨kReturnServerError, 0, 400⟩) 100 3 1000 0
          kReturnInvalidArgument).uses.take
          (providerLoop (fun _ => ⟨kReturnServerError, 0, 400⟩) 100 3 1000 0
            kReturnInvalidArgument).sleeps.length).sum
      + (providerLoop (fun _ => ⟨kReturnServerError, 0, 400⟩) 100 3 1000 0
          kReturnInvalidArgument).sleeps.sum = 1000
    ∧ (∀ b ∈ (providerLoop (fun _ => ⟨kReturnServerError, 0, 400⟩) 100 3 1000 0
        kReturnInvalidArgument).budgets, b ≤ 1000)
    ∧ List.Pairwise (fun x y => y ≤ x)
        ((providerLoop (fun _ => ⟨kReturnServerError, 0, 400⟩) 100 3 1000 0
            kReturnInvalidArgument).budgets
          ++ [(providerLoop (fun _ => ⟨kReturnServerError, 0, 400⟩) 100 3 1000 0
              kReturnInvalidArgument).remaining]) :=
  C10_budget_subtractions_never_wrap (fun _ => ⟨kReturnServerError, 0, 400⟩)
    100 3 1000 0 kReturnInvalidArgument (by norm_num [W])

end Polaris
